import Mathlib

/-!  Shallow embedding of the zara-homepage-scraper repository.

Each awaited browser or library call is modelled by a field of an environment
record holding an `Except String` outcome: `Except.ok` is a normal return and
`Except.error m` is a raised exception whose `str(e)` text is `m`.  Console and
log output carry no data flow back into the program and are not modelled as
state; the sequencing of the pipeline steps is recorded in an explicit trace of
events.  File names and directories are modelled as plain strings joined with
a forward slash, the rendering of a posix `pathlib.Path`.
-/

/-- Embedding of an initial-segment test on lists of characters:
`listIsInit p s` holds when `p` is an initial segment of `s`.  Helper for the
Python substring operator. -/
def listIsInit : List Char → List Char → Bool
  | [], _ => true
  | _ :: _, [] => false
  | p :: ps, c :: cs => p == c && listIsInit ps cs

/-- Helper for the Python `in` operator on strings: `listContainsSub pat s`
holds when `pat` occurs contiguously inside `s`. -/
def listContainsSub (pat : List Char) : List Char → Bool
  | [] => pat.isEmpty
  | c :: cs => listIsInit pat (c :: cs) || listContainsSub pat cs

/-- Embedding of the Python expression `pat in s` on strings. -/
def strContains (s pat : String) : Bool :=
  listContainsSub pat.data s.data

/-- Embedding of the Python method `str.lower()`. -/
def strLower (s : String) : String :=
  ⟨s.data.map Char.toLower⟩

/-- Embedding of the Python method `str.strip()`: drop whitespace from both
ends. -/
def strTrim (s : String) : String :=
  ⟨((s.data.dropWhile Char.isWhitespace).reverse.dropWhile
      Char.isWhitespace).reverse⟩

/-- One extracted hero-banner record, `{"text": ..., "href": ..., "index": ...}`
as built in `ZaraScraper.extract_hero_banners`. -/
structure Banner where
  text : String
  href : String
  index : Nat
deriving Repr, DecidableEq

/-- One extracted heading record, `{"type": ..., "text": ..., "index": ...}` as
built in `DemoScraper.extract_data` and `TestScraper.extract_data`. -/
structure Heading where
  type : String
  text : String
  index : Nat
deriving Repr, DecidableEq

/-- The pipeline steps of one scraper run, used as trace events. -/
inductive Step
  | navigate
  | cookie
  | saveHTML
  | saveScreenshot
  | extract
  | report
deriving Repr, DecidableEq

namespace ZaraScraper

/-- Configuration constant `ZARA_HOME_URL` of `src/scraper/zara_scraper.py`. -/
def ZARA_HOME_URL : String := "https://www.zara.com/"

/-- Output directory constant `HTML_DIR = OUTPUT_DIR / "html"`. -/
def HTML_DIR : String := "data/scrapes/html"

/-- Output directory constant `SCREENSHOTS_DIR = OUTPUT_DIR / "screenshots"`. -/
def SCREENSHOTS_DIR : String := "data/scrapes/screenshots"

/-- The mutable result record `self.scrape_data` of `ZaraScraper`.  The
`banners` field models the `"banners"` key, present only once `run_scrape`
reaches its success path. -/
structure ScrapeData where
  timestamp : String
  url : String
  locale : String
  success : Bool
  html_file : Option String
  screenshot_file : Option String
  banners_found : Nat
  errors : List String
  banners : Option (List Banner)
deriving Repr, DecidableEq

/-- The initial `self.scrape_data` built in `ZaraScraper.__init__`. -/
def initScrapeData (ts locale : String) : ScrapeData :=
  { timestamp := ts
    url := ZARA_HOME_URL
    locale := locale
    success := false
    html_file := none
    screenshot_file := none
    banners_found := 0
    errors := []
    banners := none }

/-- Embedding of `self.scrape_data["errors"].append(msg)`. -/
def appendError (d : ScrapeData) (msg : String) : ScrapeData :=
  { d with errors := d.errors ++ [msg] }

/-- Outcomes of the awaited browser calls made by one `ZaraScraper` run.
Indexed calls (per cookie selector, per banner element) are functions of the
index; calls taking a file path are functions of that path. -/
structure Env where
  launch : Except String Unit
  goto : Except String Unit
  waitDom : Except String Unit
  cookieSleep : Except String Unit
  cookieCount : Nat → Except String Nat
  cookieClick : Nat → Except String Unit
  roleCount : Except String Nat
  roleClick : Except String Unit
  title : Except String String
  content : Except String String
  writeHtml : String → Except String Unit
  screenshot : String → Except String Unit
  waitNetIdle : Except String Unit
  bannerCount : Except String Nat
  bannerHref : Nat → Except String (Option String)
  bannerText : Nat → Except String String

/-- The fixed list `cookie_selectors` hard-coded in
`ZaraScraper.handle_cookie_popup`. -/
def cookieSelectors : List String :=
  [ "button[data-testid=\u0027cookie-accept\u0027]"
  , "button:has-text(\u0027Accept\u0027)"
  , "button:has-text(\u0027Accept All\u0027)"
  , "button:has-text(\u0027I Accept\u0027)"
  , "button:has-text(\u0027OK\u0027)"
  , "[data-testid=\u0027cookie-banner\u0027] button"
  , ".cookie-accept"
  , "#cookie-accept"
  , "button[aria-label*=\u0027Accept\u0027]"
  , "button[aria-label*=\u0027Cookie\u0027]" ]

/-- Events inside `handle_cookie_popup`: the single fixed sleep, the count
probe of the selector at a given list position, the click on its first
element, and the role-based fallback probe and click. -/
inductive CookieEv
  | sleep
  | probe (i : Nat)
  | click (i : Nat)
  | roleProbe
  | roleClick
deriving Repr, DecidableEq

/-- The `for selector in cookie_selectors` loop of `handle_cookie_popup`,
iterating over selector positions.  Each iteration counts the elements for the
selector; an exception from the count or from the click is caught by the inner
handler and the loop continues with the next selector; a positive count
followed by a successful click returns that position. -/
def cookieLoop (env : Env) : List Nat → Option Nat × List CookieEv
  | [] => (none, [])
  | i :: rest =>
    match env.cookieCount i with
    | .error _ =>
      let r := cookieLoop env rest
      (r.1, .probe i :: r.2)
    | .ok n =>
      if 0 < n then
        match env.cookieClick i with
        | .ok _ => (some i, [.probe i, .click i])
        | .error _ =>
          let r := cookieLoop env rest
          (r.1, .probe i :: .click i :: r.2)
      else
        let r := cookieLoop env rest
        (r.1, .probe i :: r.2)

/-- Embedding of `ZaraScraper.handle_cookie_popup`: one fixed sleep, the
linear scan over `cookieSelectors`, then the role-based fallback whose own
exceptions are swallowed; the outer handler appends an error and returns
`False`.  Returns the result, the updated record and the event trace. -/
def handle_cookie_popup (env : Env) (d : ScrapeData) :
    Bool × ScrapeData × List CookieEv :=
  match env.cookieSleep with
  | .error m =>
    (false, appendError d ("Error handling cookie popup: " ++ m), [.sleep])
  | .ok _ =>
    match cookieLoop env (List.range cookieSelectors.length) with
    | (some _, t) => (true, d, .sleep :: t)
    | (none, t) =>
      match env.roleCount with
      | .error _ => (false, d, .sleep :: (t ++ [.roleProbe]))
      | .ok n =>
        if 0 < n then
          match env.roleClick with
          | .ok _ => (true, d, .sleep :: (t ++ [.roleProbe, .roleClick]))
          | .error _ => (false, d, .sleep :: (t ++ [.roleProbe, .roleClick]))
        else
          (false, d, .sleep :: (t ++ [.roleProbe]))

/-- Embedding of `ZaraScraper.navigate_to_homepage`: goto, wait for load,
cookie-popup handling, then the title check `"zara" in title.lower()`; any
exception reaching the outer handler appends one error and returns `False`.
The `Step` trace records the goto attempt and the cookie-handling attempt. -/
def navigate_to_homepage (env : Env) (d : ScrapeData) :
    Bool × ScrapeData × List Step :=
  match env.goto with
  | .error m =>
    (false, appendError d ("Failed to navigate to homepage: " ++ m), [.navigate])
  | .ok _ =>
    match env.waitDom with
    | .error m =>
      (false, appendError d ("Failed to navigate to homepage: " ++ m), [.navigate])
    | .ok _ =>
      let c := handle_cookie_popup env d
      match env.title with
      | .error m =>
        (false, appendError c.2.1 ("Failed to navigate to homepage: " ++ m),
          [.navigate, .cookie])
      | .ok t =>
        (strContains (strLower t) "zara", c.2.1, [.navigate, .cookie])

/-- The HTML file path `HTML_DIR / f"zara_homepage_{self.timestamp}.html"`. -/
def htmlPath (ts : String) : String :=
  HTML_DIR ++ "/" ++ "zara_homepage_" ++ ts ++ ".html"

/-- The screenshot file path
`SCREENSHOTS_DIR / f"zara_homepage_{self.timestamp}.png"`. -/
def screenshotPath (ts : String) : String :=
  SCREENSHOTS_DIR ++ "/" ++ "zara_homepage_" ++ ts ++ ".png"

/-- Embedding of `ZaraScraper.save_html`: read the page content, write it at
the timestamped path, record the path; an exception appends one error and
returns `None`. -/
def save_html (env : Env) (ts : String) (d : ScrapeData) :
    Option String × ScrapeData :=
  match env.content with
  | .error m => (none, appendError d ("Failed to save HTML: " ++ m))
  | .ok _ =>
    match env.writeHtml (htmlPath ts) with
    | .error m => (none, appendError d ("Failed to save HTML: " ++ m))
    | .ok _ =>
      (some (htmlPath ts), { d with html_file := some (htmlPath ts) })

/-- Embedding of `ZaraScraper.save_screenshot`: take the full-page screenshot
at the timestamped path and record the path; an exception appends one error
and returns `None`. -/
def save_screenshot (env : Env) (ts : String) (d : ScrapeData) :
    Option String × ScrapeData :=
  match env.screenshot (screenshotPath ts) with
  | .error m => (none, appendError d ("Failed to save screenshot: " ++ m))
  | .ok _ =>
    (some (screenshotPath ts),
      { d with screenshot_file := some (screenshotPath ts) })

/-- The `for i in range(min(count, 20))` loop of `extract_hero_banners` over
element positions: read the href attribute and the inner text (an exception
from either is caught and the element skipped), keep the element when the
href is truthy and the stripped text is non-empty. -/
def extractLoop (env : Env) : List Nat → List Banner
  | [] => []
  | i :: rest =>
    match env.bannerHref i with
    | .error _ => extractLoop env rest
    | .ok href =>
      match env.bannerText i with
      | .error _ => extractLoop env rest
      | .ok text =>
        match href with
        | none => extractLoop env rest
        | some h =>
          if h ≠ "" ∧ strTrim text ≠ "" then
            { text := strTrim text, href := h, index := i } :: extractLoop env rest
          else
            extractLoop env rest

/-- Embedding of `ZaraScraper.extract_hero_banners`: wait for the network to
be idle, count the matching anchors, walk the first `min(count, 20)` of them,
then record `banners_found`; an exception reaching the outer handler appends
one error and returns the empty list, leaving `banners_found` untouched. -/
def extract_hero_banners (env : Env) (d : ScrapeData) :
    List Banner × ScrapeData :=
  match env.waitNetIdle with
  | .error m => ([], appendError d ("Failed to extract banners: " ++ m))
  | .ok _ =>
    match env.bannerCount with
    | .error m => ([], appendError d ("Failed to extract banners: " ++ m))
    | .ok count =>
      let banners := extractLoop env (List.range (min count 20))
      (banners, { d with banners_found := banners.length })

/-- Embedding of `ZaraScraper.start_browser`: a single block of launch calls;
an exception appends one error and is re-raised, which the embedding reports
as an `Except.error` result. -/
def start_browser (env : Env) (d : ScrapeData) :
    Except String Unit × ScrapeData :=
  match env.launch with
  | .error m =>
    (Except.error m, appendError d ("Failed to start browser: " ++ m))
  | .ok _ => (Except.ok (), d)

/-- Embedding of `ZaraScraper.run_scrape`: navigation (which itself handles
the cookie popup), then on success the HTML save, the screenshot save, the
banner extraction, the success flag, and the result display; a failed
navigation returns at once with the success flag cleared. -/
def run_scrape (env : Env) (ts locale : String) : ScrapeData × List Step :=
  let d0 := initScrapeData ts locale
  match navigate_to_homepage env d0 with
  | (false, d1, t1) => ({ d1 with success := false }, t1)
  | (true, d1, t1) =>
    let h := save_html env ts d1
    let s := save_screenshot env ts h.2
    let e := extract_hero_banners env s.2
    ({ e.2 with success := true, banners := some e.1 },
      t1 ++ [.saveHTML, .saveScreenshot, .extract, .report])

/-- The full ordered step sequence of a completed run. -/
def fullSteps : List Step :=
  [.navigate, .cookie, .saveHTML, .saveScreenshot, .extract, .report]

end ZaraScraper

/-- Outcomes of the awaited browser calls of one `DemoScraper` or
`TestScraper` run: the two classes make exactly the same calls. -/
structure BasicEnv where
  launch : Except String Unit
  goto : Except String Unit
  waitDom : Except String Unit
  title : Except String String
  content : Except String String
  writeHtml : String → Except String Unit
  screenshot : String → Except String Unit
  waitNetIdle : Except String Unit
  headingCount : Except String Nat
  headText : Nat → Except String String
  headTag : Nat → Except String String

/-- The mutable result record `self.scrape_data` shared in shape by
`DemoScraper` and `TestScraper`: unlike `ZaraScraper` it records the page
title and counts headings, and the `extracted_data` key is present only once
`run_scrape` reaches its success path. -/
structure PageScrapeData where
  timestamp : String
  url : String
  locale : String
  success : Bool
  html_file : Option String
  screenshot_file : Option String
  title : Option String
  headings_found : Nat
  errors : List String
  extracted_data : Option (List Heading)
deriving Repr, DecidableEq

/-- Embedding of `self.scrape_data["errors"].append(msg)` on the
demo/test-shaped record. -/
def pageAppendError (d : PageScrapeData) (msg : String) : PageScrapeData :=
  { d with errors := d.errors ++ [msg] }

namespace DemoScraper

/-- Configuration constant `DEMO_URL` of `src/scraper/demo_scraper.py`. -/
def DEMO_URL : String := "https://httpbin.org/html"

/-- Output directory constant `HTML_DIR = OUTPUT_DIR / "html"`. -/
def HTML_DIR : String := "data/demo_scrapes/html"

/-- Output directory constant `SCREENSHOTS_DIR = OUTPUT_DIR / "screenshots"`. -/
def SCREENSHOTS_DIR : String := "data/demo_scrapes/screenshots"

/-- The initial `self.scrape_data` built in `DemoScraper.__init__`. -/
def initScrapeData (ts locale : String) : PageScrapeData :=
  { timestamp := ts
    url := DEMO_URL
    locale := locale
    success := false
    html_file := none
    screenshot_file := none
    title := none
    headings_found := 0
    errors := []
    extracted_data := none }

/-- Embedding of `DemoScraper.start_browser`: one block of launch calls; an
exception appends one error and is re-raised. -/
def start_browser (env : BasicEnv) (d : PageScrapeData) :
    Except String Unit × PageScrapeData :=
  match env.launch with
  | .error m =>
    (Except.error m, pageAppendError d ("Failed to start browser: " ++ m))
  | .ok _ => (Except.ok (), d)

/-- Embedding of `DemoScraper.navigate_to_page`: goto, wait for load, read the
title into the record, return `True`; any exception appends one error and
returns `False`.  No cookie handling and no title condition. -/
def navigate_to_page (env : BasicEnv) (d : PageScrapeData) :
    Bool × PageScrapeData × List Step :=
  match env.goto with
  | .error m =>
    (false, pageAppendError d ("Failed to navigate to page: " ++ m), [.navigate])
  | .ok _ =>
    match env.waitDom with
    | .error m =>
      (false, pageAppendError d ("Failed to navigate to page: " ++ m), [.navigate])
    | .ok _ =>
      match env.title with
      | .error m =>
        (false, pageAppendError d ("Failed to navigate to page: " ++ m), [.navigate])
      | .ok t => (true, { d with title := some t }, [.navigate])

/-- The HTML file path `HTML_DIR / f"demo_page_{self.timestamp}.html"`. -/
def htmlPath (ts : String) : String :=
  HTML_DIR ++ "/" ++ "demo_page_" ++ ts ++ ".html"

/-- The screenshot path `SCREENSHOTS_DIR / f"demo_page_{self.timestamp}.png"`. -/
def screenshotPath (ts : String) : String :=
  SCREENSHOTS_DIR ++ "/" ++ "demo_page_" ++ ts ++ ".png"

/-- Embedding of `DemoScraper.save_html`. -/
def save_html (env : BasicEnv) (ts : String) (d : PageScrapeData) :
    Option String × PageScrapeData :=
  match env.content with
  | .error m => (none, pageAppendError d ("Failed to save HTML: " ++ m))
  | .ok _ =>
    match env.writeHtml (htmlPath ts) with
    | .error m => (none, pageAppendError d ("Failed to save HTML: " ++ m))
    | .ok _ =>
      (some (htmlPath ts), { d with html_file := some (htmlPath ts) })

/-- Embedding of `DemoScraper.save_screenshot`. -/
def save_screenshot (env : BasicEnv) (ts : String) (d : PageScrapeData) :
    Option String × PageScrapeData :=
  match env.screenshot (screenshotPath ts) with
  | .error m => (none, pageAppendError d ("Failed to save screenshot: " ++ m))
  | .ok _ =>
    (some (screenshotPath ts),
      { d with screenshot_file := some (screenshotPath ts) })

/-- The `for i, heading in enumerate(headings)` loop of
`DemoScraper.extract_data`: read the inner text and the tag name (an exception
from either is caught and the element skipped), keep the element when the
stripped text is non-empty. -/
def extractLoop (env : BasicEnv) : List Nat → List Heading
  | [] => []
  | i :: rest =>
    match env.headText i with
    | .error _ => extractLoop env rest
    | .ok text =>
      match env.headTag i with
      | .error _ => extractLoop env rest
      | .ok tag =>
        if strTrim text ≠ "" then
          { type := tag, text := strTrim text, index := i } :: extractLoop env rest
        else
          extractLoop env rest

/-- Embedding of `DemoScraper.extract_data`: wait for the network to be idle,
query all headings, walk every one of them, record `headings_found`; an
exception reaching the outer handler appends one error and returns the empty
list. -/
def extract_data (env : BasicEnv) (d : PageScrapeData) :
    List Heading × PageScrapeData :=
  match env.waitNetIdle with
  | .error m => ([], pageAppendError d ("Failed to extract data: " ++ m))
  | .ok _ =>
    match env.headingCount with
    | .error m => ([], pageAppendError d ("Failed to extract data: " ++ m))
    | .ok count =>
      let items := extractLoop env (List.range count)
      (items, { d with headings_found := items.length })

/-- Embedding of `DemoScraper.run_scrape`: navigation, then on success the
HTML save, the screenshot save, the data extraction, the success flag, and
the result display; a failed navigation returns at once. -/
def run_scrape (env : BasicEnv) (ts locale : String) :
    PageScrapeData × List Step :=
  let d0 := initScrapeData ts locale
  match navigate_to_page env d0 with
  | (false, d1, t1) => ({ d1 with success := false }, t1)
  | (true, d1, t1) =>
    let h := save_html env ts d1
    let s := save_screenshot env ts h.2
    let e := extract_data env s.2
    ({ e.2 with success := true, extracted_data := some e.1 },
      t1 ++ [.saveHTML, .saveScreenshot, .extract, .report])

end DemoScraper

namespace TestScraper

/-- Configuration constant `TEST_URL` of `src/scraper/test_scraper.py`. -/
def TEST_URL : String := "https://example.com"

/-- Output directory constant `HTML_DIR = OUTPUT_DIR / "html"`. -/
def HTML_DIR : String := "data/test_scrapes/html"

/-- Output directory constant `SCREENSHOTS_DIR = OUTPUT_DIR / "screenshots"`. -/
def SCREENSHOTS_DIR : String := "data/test_scrapes/screenshots"

/-- The initial `self.scrape_data` built in `TestScraper.__init__`. -/
def initScrapeData (ts locale : String) : PageScrapeData :=
  { timestamp := ts
    url := TEST_URL
    locale := locale
    success := false
    html_file := none
    screenshot_file := none
    title := none
    headings_found := 0
    errors := []
    extracted_data := none }

/-- Embedding of `TestScraper.start_browser`. -/
def start_browser (env : BasicEnv) (d : PageScrapeData) :
    Except String Unit × PageScrapeData :=
  match env.launch with
  | .error m =>
    (Except.error m, pageAppendError d ("Failed to start browser: " ++ m))
  | .ok _ => (Except.ok (), d)

/-- Embedding of `TestScraper.navigate_to_page`: identical control flow to the
demo class, with the test URL. -/
def navigate_to_page (env : BasicEnv) (d : PageScrapeData) :
    Bool × PageScrapeData × List Step :=
  match env.goto with
  | .error m =>
    (false, pageAppendError d ("Failed to navigate to page: " ++ m), [.navigate])
  | .ok _ =>
    match env.waitDom with
    | .error m =>
      (false, pageAppendError d ("Failed to navigate to page: " ++ m), [.navigate])
    | .ok _ =>
      match env.title with
      | .error m =>
        (false, pageAppendError d ("Failed to navigate to page: " ++ m), [.navigate])
      | .ok t => (true, { d with title := some t }, [.navigate])

/-- The HTML file path `HTML_DIR / f"test_page_{self.timestamp}.html"`. -/
def htmlPath (ts : String) : String :=
  HTML_DIR ++ "/" ++ "test_page_" ++ ts ++ ".html"

/-- The screenshot path `SCREENSHOTS_DIR / f"test_page_{self.timestamp}.png"`. -/
def screenshotPath (ts : String) : String :=
  SCREENSHOTS_DIR ++ "/" ++ "test_page_" ++ ts ++ ".png"

/-- Embedding of `TestScraper.save_html`. -/
def save_html (env : BasicEnv) (ts : String) (d : PageScrapeData) :
    Option String × PageScrapeData :=
  match env.content with
  | .error m => (none, pageAppendError d ("Failed to save HTML: " ++ m))
  | .ok _ =>
    match env.writeHtml (htmlPath ts) with
    | .error m => (none, pageAppendError d ("Failed to save HTML: " ++ m))
    | .ok _ =>
      (some (htmlPath ts), { d with html_file := some (htmlPath ts) })

/-- Embedding of `TestScraper.save_screenshot`. -/
def save_screenshot (env : BasicEnv) (ts : String) (d : PageScrapeData) :
    Option String × PageScrapeData :=
  match env.screenshot (screenshotPath ts) with
  | .error m => (none, pageAppendError d ("Failed to save screenshot: " ++ m))
  | .ok _ =>
    (some (screenshotPath ts),
      { d with screenshot_file := some (screenshotPath ts) })

/-- The heading loop of `TestScraper.extract_data`, identical to the demo
class. -/
def extractLoop (env : BasicEnv) : List Nat → List Heading
  | [] => []
  | i :: rest =>
    match env.headText i with
    | .error _ => extractLoop env rest
    | .ok text =>
      match env.headTag i with
      | .error _ => extractLoop env rest
      | .ok tag =>
        if strTrim text ≠ "" then
          { type := tag, text := strTrim text, index := i } :: extractLoop env rest
        else
          extractLoop env rest

/-- Embedding of `TestScraper.extract_data`. -/
def extract_data (env : BasicEnv) (d : PageScrapeData) :
    List Heading × PageScrapeData :=
  match env.waitNetIdle with
  | .error m => ([], pageAppendError d ("Failed to extract data: " ++ m))
  | .ok _ =>
    match env.headingCount with
    | .error m => ([], pageAppendError d ("Failed to extract data: " ++ m))
    | .ok count =>
      let items := extractLoop env (List.range count)
      (items, { d with headings_found := items.length })

/-- Embedding of `TestScraper.run_scrape`. -/
def run_scrape (env : BasicEnv) (ts locale : String) :
    PageScrapeData × List Step :=
  let d0 := initScrapeData ts locale
  match navigate_to_page env d0 with
  | (false, d1, t1) => ({ d1 with success := false }, t1)
  | (true, d1, t1) =>
    let h := save_html env ts d1
    let s := save_screenshot env ts h.2
    let e := extract_data env s.2
    ({ e.2 with success := true, extracted_data := some e.1 },
      t1 ++ [.saveHTML, .saveScreenshot, .extract, .report])

end TestScraper

namespace SpecPipeline

/-- Modelled from the spec: the configuration constants that, per the spec,
are the only difference between the scraper classes — the target URL, the two
output directories, and the stem of the timestamped output file names. -/
structure PipelineConfig where
  url : String
  htmlDir : String
  shotDir : String
  fileStem : String
deriving Repr, DecidableEq

/-- Modelled from the spec: the initial result record of the generic
pipeline, the fields of the demo/test-shaped record with the configured URL. -/
def initScrapeData (cfg : PipelineConfig) (ts locale : String) :
    PageScrapeData :=
  { timestamp := ts
    url := cfg.url
    locale := locale
    success := false
    html_file := none
    screenshot_file := none
    title := none
    headings_found := 0
    errors := []
    extracted_data := none }

/-- Modelled from the spec: the generic navigation step — load the page, wait,
record the title, succeed; on an exception append one error and fail. -/
def navigate (env : BasicEnv) (d : PageScrapeData) :
    Bool × PageScrapeData × List Step :=
  match env.goto with
  | .error m =>
    (false, pageAppendError d ("Failed to navigate to page: " ++ m), [.navigate])
  | .ok _ =>
    match env.waitDom with
    | .error m =>
      (false, pageAppendError d ("Failed to navigate to page: " ++ m), [.navigate])
    | .ok _ =>
      match env.title with
      | .error m =>
        (false, pageAppendError d ("Failed to navigate to page: " ++ m), [.navigate])
      | .ok t => (true, { d with title := some t }, [.navigate])

/-- Modelled from the spec: the configured timestamped HTML file path. -/
def htmlPath (cfg : PipelineConfig) (ts : String) : String :=
  cfg.htmlDir ++ "/" ++ cfg.fileStem ++ ts ++ ".html"

/-- Modelled from the spec: the configured timestamped screenshot path. -/
def screenshotPath (cfg : PipelineConfig) (ts : String) : String :=
  cfg.shotDir ++ "/" ++ cfg.fileStem ++ ts ++ ".png"

/-- Modelled from the spec: the generic HTML-save step at the configured
path. -/
def save_html (cfg : PipelineConfig) (env : BasicEnv) (ts : String)
    (d : PageScrapeData) : Option String × PageScrapeData :=
  match env.content with
  | .error m => (none, pageAppendError d ("Failed to save HTML: " ++ m))
  | .ok _ =>
    match env.writeHtml (htmlPath cfg ts) with
    | .error m => (none, pageAppendError d ("Failed to save HTML: " ++ m))
    | .ok _ =>
      (some (htmlPath cfg ts), { d with html_file := some (htmlPath cfg ts) })

/-- Modelled from the spec: the generic screenshot-save step at the configured
path. -/
def save_screenshot (cfg : PipelineConfig) (env : BasicEnv) (ts : String)
    (d : PageScrapeData) : Option String × PageScrapeData :=
  match env.screenshot (screenshotPath cfg ts) with
  | .error m => (none, pageAppendError d ("Failed to save screenshot: " ++ m))
  | .ok _ =>
    (some (screenshotPath cfg ts),
      { d with screenshot_file := some (screenshotPath cfg ts) })

/-- Modelled from the spec: the generic extraction loop over all headings. -/
def extractLoop (env : BasicEnv) : List Nat → List Heading
  | [] => []
  | i :: rest =>
    match env.headText i with
    | .error _ => extractLoop env rest
    | .ok text =>
      match env.headTag i with
      | .error _ => extractLoop env rest
      | .ok tag =>
        if strTrim text ≠ "" then
          { type := tag, text := strTrim text, index := i } :: extractLoop env rest
        else
          extractLoop env rest

/-- Modelled from the spec: the generic extraction step. -/
def extract_data (env : BasicEnv) (d : PageScrapeData) :
    List Heading × PageScrapeData :=
  match env.waitNetIdle with
  | .error m => ([], pageAppendError d ("Failed to extract data: " ++ m))
  | .ok _ =>
    match env.headingCount with
    | .error m => ([], pageAppendError d ("Failed to extract data: " ++ m))
    | .ok count =>
      let items := extractLoop env (List.range count)
      (items, { d with headings_found := items.length })

/-- Modelled from the spec: the generic pipeline
navigate, save HTML, save screenshot, extract, report, distinguished from the
concrete classes only by the configuration constants. -/
def run_scrape (cfg : PipelineConfig) (env : BasicEnv) (ts locale : String) :
    PageScrapeData × List Step :=
  let d0 := initScrapeData cfg ts locale
  match navigate env d0 with
  | (false, d1, t1) => ({ d1 with success := false }, t1)
  | (true, d1, t1) =>
    let h := save_html cfg env ts d1
    let s := save_screenshot cfg env ts h.2
    let e := extract_data env s.2
    ({ e.2 with success := true, extracted_data := some e.1 },
      t1 ++ [.saveHTML, .saveScreenshot, .extract, .report])

/-- The configuration constants of `DemoScraper`. -/
def demoCfg : PipelineConfig :=
  { url := "https://httpbin.org/html"
    htmlDir := "data/demo_scrapes/html"
    shotDir := "data/demo_scrapes/screenshots"
    fileStem := "demo_page_" }

/-- The configuration constants of `TestScraper`. -/
def testCfg : PipelineConfig :=
  { url := "https://example.com"
    htmlDir := "data/test_scrapes/html"
    shotDir := "data/test_scrapes/screenshots"
    fileStem := "test_page_" }

end SpecPipeline

/-- Python truthiness of a `dict.get("success")` value: a missing key gives
`None`, which is falsy, and a present key gives its boolean value. -/
def truthy : Option Bool → Bool
  | none => false
  | some b => b

/-- Embedding of the `zara_scraper.py` main block
`exit(0 if results.get("success") else 1)`. -/
def zara_scraper_exit (success : Option Bool) : Nat :=
  if truthy success then 0 else 1

/-- Embedding of the `demo_scraper.py` main block
`exit(0 if results.get("success") else 1)`. -/
def demo_scraper_exit (success : Option Bool) : Nat :=
  if truthy success then 0 else 1

/-- Embedding of the `test_scraper.py` main block
`exit(0 if results.get("success") else 1)`. -/
def test_scraper_exit (success : Option Bool) : Nat :=
  if truthy success then 0 else 1

/-- Embedding of the `run_scraper.py` main block: `run_test` returns
`results.get("success", False)` and the block runs `sys.exit(0 if success
else 1)`. -/
def run_scraper_exit (success : Option Bool) : Nat :=
  if success.getD false then 0 else 1

/-- Embedding of the `run_demo.py` main block: `run_demo` returns
`results.get("success", False)` and the block runs `sys.exit(0 if success
else 1)`. -/
def run_demo_exit (success : Option Bool) : Nat :=
  if success.getD false then 0 else 1

/-- The record `SCRAPING_CONFIG` of `src/scraper/config.py`. -/
structure ScrapingConfig where
  max_retries : Nat
  retry_delay : Nat
  wait_for_load : Nat
  max_banners : Nat
  screenshot_quality : Nat
deriving Repr, DecidableEq

/-- The values of `SCRAPING_CONFIG` in `src/scraper/config.py`. -/
def SCRAPING_CONFIG : ScrapingConfig :=
  { max_retries := 3
    retry_delay := 5
    wait_for_load := 5
    max_banners := 20
    screenshot_quality := 90 }

/-- A `ZaraScraper` run seen as a function of the scraping configuration:
`zara_scraper.py` never imports `config.py`, so the run does not depend on the
configuration record at all. -/
def run_scrape_with_config (cfg : ScrapingConfig) (env : ZaraScraper.Env)
    (ts locale : String) : ZaraScraper.ScrapeData × List Step :=
  ZaraScraper.run_scrape env ts locale

/-- An environment in which every browser call of a `ZaraScraper` run
succeeds: the page loads with a Zara title, no cookie popup is present, and
three banner anchors are found. -/
def okEnv : ZaraScraper.Env :=
  { launch := Except.ok ()
    goto := Except.ok ()
    waitDom := Except.ok ()
    cookieSleep := Except.ok ()
    cookieCount := fun _ => Except.ok 0
    cookieClick := fun _ => Except.ok ()
    roleCount := Except.ok 0
    roleClick := Except.ok ()
    title := Except.ok "ZARA United States"
    content := Except.ok "<html></html>"
    writeHtml := fun _ => Except.ok ()
    screenshot := fun _ => Except.ok ()
    waitNetIdle := Except.ok ()
    bannerCount := Except.ok 3
    bannerHref := fun _ => Except.ok (some "https://www.zara.com/shop")
    bannerText := fun _ => Except.ok " SHOP NOW " }

/-- An environment in which every browser call of a demo or test run
succeeds. -/
def basicOkEnv : BasicEnv :=
  { launch := Except.ok ()
    goto := Except.ok ()
    waitDom := Except.ok ()
    title := Except.ok "Example Domain"
    content := Except.ok "<html></html>"
    writeHtml := fun _ => Except.ok ()
    screenshot := fun _ => Except.ok ()
    waitNetIdle := Except.ok ()
    headingCount := Except.ok 2
    headText := fun _ => Except.ok " A Heading "
    headTag := fun _ => Except.ok "h1" }

example : (ZaraScraper.run_scrape okEnv "TS" "en-US").1.success = true := by decide
example : (ZaraScraper.run_scrape okEnv "TS" "en-US").1.banners_found = 3 := by decide
example : (DemoScraper.run_scrape basicOkEnv "TS" "en-US").1.headings_found = 2 := by
  decide

namespace ZaraScraper

/-- Frame lemma: the cookie handler can only touch the error list. -/
theorem handle_cookie_popup_frame (env : Env) (d : ScrapeData) :
    (handle_cookie_popup env d).2.1.html_file = d.html_file
  ∧ (handle_cookie_popup env d).2.1.screenshot_file = d.screenshot_file
  ∧ (handle_cookie_popup env d).2.1.banners_found = d.banners_found
  ∧ (handle_cookie_popup env d).2.1.success = d.success
  ∧ (handle_cookie_popup env d).2.1.banners = d.banners
  ∧ (handle_cookie_popup env d).2.1.timestamp = d.timestamp := by
  unfold handle_cookie_popup
  rcases env.cookieSleep with m | u
  · simp [appendError]
  · rcases h : cookieLoop env (List.range cookieSelectors.length) with ⟨o, t⟩
    rcases o with _ | i
    · rcases env.roleCount with m | n
      · simp
      · by_cases hn : 0 < n
        · simp only [hn, if_true]
          rcases env.roleClick with m | u <;> simp
        · simp [hn]
    · simp

/-- With a successful sleep the cookie handler leaves the record unchanged:
exceptions of the per-selector probes and clicks and of the role fallback are
swallowed without appending anything. -/
theorem handle_cookie_popup_state_of_sleep_ok (env : Env) (d : ScrapeData)
    (h : env.cookieSleep = Except.ok ()) :
    (handle_cookie_popup env d).2.1 = d := by
  unfold handle_cookie_popup
  rw [h]
  rcases hcl : cookieLoop env (List.range cookieSelectors.length) with ⟨o, t⟩
  rcases o with _ | i
  · rcases env.roleCount with m | n
    · simp
    · by_cases hn : 0 < n
      · simp only [hn, if_true]
        rcases env.roleClick with m | u <;> simp
      · simp [hn]
  · simp

end ZaraScraper

namespace ZaraScraper

/-- Frame lemma: navigation can only touch the error list and the returned
flag. -/
theorem navigate_frame (env : Env) (d : ScrapeData) :
    (navigate_to_homepage env d).2.1.html_file = d.html_file
  ∧ (navigate_to_homepage env d).2.1.screenshot_file = d.screenshot_file
  ∧ (navigate_to_homepage env d).2.1.banners_found = d.banners_found
  ∧ (navigate_to_homepage env d).2.1.success = d.success
  ∧ (navigate_to_homepage env d).2.1.banners = d.banners
  ∧ (navigate_to_homepage env d).2.1.timestamp = d.timestamp := by
  have hf := handle_cookie_popup_frame env d
  unfold navigate_to_homepage
  rcases env.goto with m | u
  · simp [appendError]
  · rcases env.waitDom with m | u
    · simp [appendError]
    · rcases env.title with m | t
      · simp only [appendError]
        exact ⟨hf.1, hf.2.1, hf.2.2.1, hf.2.2.2.1, hf.2.2.2.2.1, hf.2.2.2.2.2⟩
      · exact ⟨hf.1, hf.2.1, hf.2.2.1, hf.2.2.2.1, hf.2.2.2.2.1, hf.2.2.2.2.2⟩

/-- The trace of one navigation attempt: the goto, and the cookie handling
exactly when the page loaded. -/
theorem navigate_trace (env : Env) (d : ScrapeData) :
    (navigate_to_homepage env d).2.2 = [Step.navigate]
  ∨ (navigate_to_homepage env d).2.2 = [Step.navigate, Step.cookie] := by
  unfold navigate_to_homepage
  rcases env.goto with m | u
  · exact Or.inl rfl
  · rcases env.waitDom with m | u
    · exact Or.inl rfl
    · rcases env.title with m | t
      · exact Or.inr rfl
      · exact Or.inr rfl

/-- A successful navigation pins down the title outcome: the page loaded and
its lowered title contains the word zara. -/
theorem navigate_true (env : Env) (d : ScrapeData)
    (h : (navigate_to_homepage env d).1 = true) :
    ∃ t, env.title = Except.ok t ∧ strContains (strLower t) "zara" = true
      ∧ (navigate_to_homepage env d).2.2 = [Step.navigate, Step.cookie] := by
  revert h
  unfold navigate_to_homepage
  rcases env.goto with m | u
  · intro h; exact absurd h (by simp)
  · rcases env.waitDom with m | u
    · intro h; exact absurd h (by simp)
    · rcases ht : env.title with m | t
      · intro h; exact absurd h (by simp)
      · intro h; exact ⟨t, rfl, h, rfl⟩

/-- When the goto and the load wait both return, the cookie handler is
attempted during navigation. -/
theorem navigate_cookie_attempted (env : Env) (d : ScrapeData)
    (hg : env.goto = Except.ok ()) (hw : env.waitDom = Except.ok ()) :
    (navigate_to_homepage env d).2.2 = [Step.navigate, Step.cookie] := by
  unfold navigate_to_homepage
  rw [hg, hw]
  rcases env.title with m | t
  · rfl
  · rfl

/-- Unfolding of `run_scrape` on a failed navigation. -/
theorem run_scrape_of_nav_false (env : Env) (ts locale : String)
    (h : (navigate_to_homepage env (initScrapeData ts locale)).1 = false) :
    run_scrape env ts locale =
      ({ (navigate_to_homepage env (initScrapeData ts locale)).2.1 with
          success := false },
        (navigate_to_homepage env (initScrapeData ts locale)).2.2) := by
  unfold run_scrape
  rcases hn : navigate_to_homepage env (initScrapeData ts locale) with ⟨b, d1, t1⟩
  rw [hn] at h
  cases b
  · dsimp only
    rw [hn]
  · exact absurd h (by simp)

/-- Unfolding of `run_scrape` on a successful navigation. -/
theorem run_scrape_of_nav_true (env : Env) (ts locale : String)
    (h : (navigate_to_homepage env (initScrapeData ts locale)).1 = true) :
    run_scrape env ts locale =
      ({ (extract_hero_banners env
            (save_screenshot env ts
              (save_html env ts
                (navigate_to_homepage env (initScrapeData ts locale)).2.1).2).2).2
          with
          success := true
          banners := some (extract_hero_banners env
            (save_screenshot env ts
              (save_html env ts
                (navigate_to_homepage env (initScrapeData ts locale)).2.1).2).2).1 },
        (navigate_to_homepage env (initScrapeData ts locale)).2.2
          ++ [Step.saveHTML, Step.saveScreenshot, Step.extract, Step.report]) := by
  unfold run_scrape
  rcases hn : navigate_to_homepage env (initScrapeData ts locale) with ⟨b, d1, t1⟩
  rw [hn] at h
  cases b
  · exact absurd h (by simp)
  · dsimp only
    rw [hn]

end ZaraScraper

namespace ZaraScraper

/-- The per-position hit predicate of the cookie scan: the selector at
position `i` matches when its element-count call returns a positive number;
a raised count call behaves like a miss. -/
def selectorHit (env : Env) (i : Nat) : Bool :=
  match env.cookieCount i with
  | .ok n => decide (0 < n)
  | .error _ => false

/-- The positions probed by a cookie trace, in order. -/
def probesOf (t : List CookieEv) : List Nat :=
  t.filterMap fun e =>
    match e with
    | .probe i => some i
    | _ => none

theorem probesOf_nil : probesOf [] = [] := rfl

theorem probesOf_cons_probe (i : Nat) (t : List CookieEv) :
    probesOf (.probe i :: t) = i :: probesOf t := rfl

theorem probesOf_cons_click (i : Nat) (t : List CookieEv) :
    probesOf (.click i :: t) = probesOf t := rfl

/-- The scan loop never sleeps. -/
theorem cookieLoop_no_sleep (env : Env) (l : List Nat) :
    CookieEv.sleep ∉ (cookieLoop env l).2 := by
  induction l with
  | nil => simp [cookieLoop]
  | cons i rest ih =>
    unfold cookieLoop
    rcases env.cookieCount i with m | n
    · simpa using ih
    · by_cases hn : 0 < n
      · simp only [hn, if_true]
        rcases env.cookieClick i with m | u
        · simpa using ih
        · simp
      · simp only [hn, if_false]
        simpa using ih

/-- The scan loop probes an initial segment of its selector list. -/
theorem cookieLoop_probes (env : Env) (l : List Nat) :
    ∃ k, probesOf (cookieLoop env l).2 = l.take k := by
  induction l with
  | nil => exact ⟨0, rfl⟩
  | cons i rest ih =>
    rcases ih with ⟨k, hk⟩
    unfold cookieLoop
    rcases env.cookieCount i with m | n
    · exact ⟨k + 1, by simp [probesOf_cons_probe, hk]⟩
    · by_cases hn : 0 < n
      · simp only [hn, if_true]
        rcases env.cookieClick i with m | u
        · exact ⟨k + 1, by simp [probesOf_cons_probe, probesOf_cons_click, hk]⟩
        · exact ⟨1, by simp [probesOf_cons_probe, probesOf_cons_click, probesOf_nil]⟩
      · simp only [hn, if_false]
        exact ⟨k + 1, by simp [probesOf_cons_probe, hk]⟩

/-- When no selector of the list matches, the scan finds nothing and probes
everything exactly once. -/
theorem cookieLoop_all_miss (env : Env) (l : List Nat)
    (h : ∀ j ∈ l, selectorHit env j = false) :
    cookieLoop env l = (none, l.map CookieEv.probe) := by
  induction l with
  | nil => rfl
  | cons i rest ih =>
    have hi := h i (by simp)
    have hrest : ∀ j ∈ rest, selectorHit env j = false :=
      fun j hj => h j (by simp [hj])
    unfold cookieLoop
    unfold selectorHit at hi
    rcases hc : env.cookieCount i with m | n
    · rw [hc] at hi
      simp [ih hrest]
    · rw [hc] at hi
      have hn : ¬ 0 < n := by simpa using hi
      simp [hn, ih hrest]

/-- When every click returns and the first matching selector sits after the
misses `s`, the scan clicks it and stops there. -/
theorem cookieLoop_first_hit (env : Env)
    (hk : ∀ i, env.cookieClick i = Except.ok ())
    (s : List Nat) (i0 : Nat) (t : List Nat)
    (hs : ∀ j ∈ s, selectorHit env j = false)
    (hi : selectorHit env i0 = true) :
    cookieLoop env (s ++ i0 :: t) =
      (some i0, s.map CookieEv.probe ++ [CookieEv.probe i0, CookieEv.click i0]) := by
  induction s with
  | nil =>
    unfold cookieLoop
    unfold selectorHit at hi
    rcases hc : env.cookieCount i0 with m | n
    · rw [hc] at hi; exact absurd hi (by simp)
    · rw [hc] at hi
      have hn : 0 < n := by simpa using hi
      simp [hc, hn, hk i0]
  | cons j s' ih =>
    have hj := hs j (by simp)
    have hs' : ∀ x ∈ s', selectorHit env x = false :=
      fun x hx => hs x (by simp [hx])
    unfold cookieLoop
    unfold selectorHit at hj
    rcases hc : env.cookieCount j with m | n
    · rw [hc] at hj
      simp [hc, ih hs']
    · rw [hc] at hj
      have hn : ¬ 0 < n := by simpa using hj
      simp [hc, hn, ih hs']

/-- Splitting a range at an inner position. -/
theorem range_split (n i : Nat) (h : i < n) :
    ∃ t, List.range n = List.range i ++ i :: t := by
  induction n with
  | zero => exact absurd h (by simp)
  | succ m ih =>
    rcases Nat.lt_succ_iff_lt_or_eq.mp h with h' | h'
    · rcases ih h' with ⟨t, ht⟩
      exact ⟨t ++ [m], by rw [List.range_succ, ht]; simp⟩
    · subst h'
      exact ⟨[], by rw [List.range_succ]⟩

end ZaraScraper

namespace ZaraScraper

/-- The extraction loop keeps at most one record per visited position. -/
theorem extractLoop_length (env : Env) (l : List Nat) :
    (extractLoop env l).length ≤ l.length := by
  induction l with
  | nil => simp [extractLoop]
  | cons i rest ih =>
    unfold extractLoop
    rcases env.bannerHref i with m | href
    · exact le_trans ih (by simp)
    · rcases env.bannerText i with m | text
      · exact le_trans ih (by simp)
      · rcases href with _ | h
        · exact le_trans ih (by simp)
        · by_cases hcond : h ≠ "" ∧ strTrim text ≠ ""
          · dsimp only
            rw [if_pos hcond]
            simpa using Nat.succ_le_succ ih
          · dsimp only
            rw [if_neg hcond]
            exact le_trans ih (by simp)

/-- Every record kept by the extraction loop has a truthy href, a non-empty
stripped text, and a visited position. -/
theorem extractLoop_mem (env : Env) (l : List Nat) :
    ∀ b ∈ extractLoop env l, b.href ≠ "" ∧ b.text ≠ "" ∧ b.index ∈ l := by
  induction l with
  | nil => simp [extractLoop]
  | cons i rest ih =>
    intro b hb
    unfold extractLoop at hb
    rcases hh : env.bannerHref i with m | href
    all_goals rw [hh] at hb
    · rcases ih b hb with ⟨h1, h2, h3⟩
      exact ⟨h1, h2, by simp [h3]⟩
    · rcases ht : env.bannerText i with m | text
      all_goals rw [ht] at hb
      · rcases ih b hb with ⟨h1, h2, h3⟩
        exact ⟨h1, h2, by simp [h3]⟩
      · rcases href with _ | h
        · rcases ih b hb with ⟨h1, h2, h3⟩
          exact ⟨h1, h2, by simp [h3]⟩
        · by_cases hcond : h ≠ "" ∧ strTrim text ≠ ""
          · dsimp only at hb
            rw [if_pos hcond] at hb
            rcases List.mem_cons.mp hb with hb' | hb'
            · subst hb'
              exact ⟨hcond.1, hcond.2, by simp⟩
            · rcases ih b hb' with ⟨h1, h2, h3⟩
              exact ⟨h1, h2, by simp [h3]⟩
          · dsimp only at hb
            rw [if_neg hcond] at hb
            rcases ih b hb with ⟨h1, h2, h3⟩
            exact ⟨h1, h2, by simp [h3]⟩

/-- The positions of the records kept by the extraction loop form a sublist of
the visited positions, in page order. -/
theorem extractLoop_index_sublist (env : Env) (l : List Nat) :
    List.Sublist ((extractLoop env l).map Banner.index) l := by
  induction l with
  | nil => simp [extractLoop]
  | cons i rest ih =>
    unfold extractLoop
    rcases env.bannerHref i with m | href
    · exact ih.cons i
    · rcases env.bannerText i with m | text
      · exact ih.cons i
      · rcases href with _ | h
        · exact ih.cons i
        · by_cases hcond : h ≠ "" ∧ strTrim text ≠ ""
          · dsimp only
            rw [if_pos hcond]
            simpa using ih.cons₂ i
          · dsimp only
            rw [if_neg hcond]
            exact ih.cons i

/-- Frame lemma: extraction can only touch `banners_found` and the error
list. -/
theorem extract_frame (env : Env) (d : ScrapeData) :
    (extract_hero_banners env d).2.html_file = d.html_file
  ∧ (extract_hero_banners env d).2.screenshot_file = d.screenshot_file
  ∧ (extract_hero_banners env d).2.success = d.success
  ∧ (extract_hero_banners env d).2.timestamp = d.timestamp := by
  unfold extract_hero_banners
  rcases env.waitNetIdle with m | u
  · simp [appendError]
  · rcases env.bannerCount with m | n
    · simp [appendError]
    · simp

/-- Unfolding of `save_html` when the content read and the file write both
return. -/
theorem save_html_ok (env : Env) (ts : String) (d : ScrapeData)
    (html : String) (hc : env.content = Except.ok html)
    (hw : env.writeHtml (htmlPath ts) = Except.ok ()) :
    save_html env ts d =
      (some (htmlPath ts), { d with html_file := some (htmlPath ts) }) := by
  unfold save_html
  rw [hc, hw]

/-- Unfolding of `save_screenshot` when the screenshot call returns. -/
theorem save_screenshot_ok (env : Env) (ts : String) (d : ScrapeData)
    (hs : env.screenshot (screenshotPath ts) = Except.ok ()) :
    save_screenshot env ts d =
      (some (screenshotPath ts),
        { d with screenshot_file := some (screenshotPath ts) }) := by
  unfold save_screenshot
  rw [hs]

/-- Frame lemma: the HTML save can only touch `html_file` and the error
list. -/
theorem save_html_frame (env : Env) (ts : String) (d : ScrapeData) :
    (save_html env ts d).2.screenshot_file = d.screenshot_file
  ∧ (save_html env ts d).2.banners_found = d.banners_found
  ∧ (save_html env ts d).2.success = d.success
  ∧ (save_html env ts d).2.timestamp = d.timestamp := by
  unfold save_html
  rcases env.content with m | html
  · simp [appendError]
  · rcases env.writeHtml (htmlPath ts) with m | u
    · simp [appendError]
    · simp

/-- Frame lemma: the screenshot save can only touch `screenshot_file` and the
error list. -/
theorem save_screenshot_frame (env : Env) (ts : String) (d : ScrapeData) :
    (save_screenshot env ts d).2.html_file = d.html_file
  ∧ (save_screenshot env ts d).2.banners_found = d.banners_found
  ∧ (save_screenshot env ts d).2.success = d.success
  ∧ (save_screenshot env ts d).2.timestamp = d.timestamp := by
  unfold save_screenshot
  rcases env.screenshot (screenshotPath ts) with m | u
  · simp [appendError]
  · simp

end ZaraScraper

/-- A fixed initial record for concrete evaluations. -/
def dZ : ZaraScraper.ScrapeData :=
  ZaraScraper.initScrapeData "20250101_000000" "en-US"

/-- An environment in which navigation succeeds but the content read, the
screenshot call and the extraction wait all raise. -/
def envC9 : ZaraScraper.Env :=
  { okEnv with
    content := Except.error "net::ERR_CONNECTION_REFUSED"
    screenshot := fun _ => Except.error "net::ERR_CONNECTION_REFUSED"
    waitNetIdle := Except.error "Timeout 30000ms exceeded" }

/-- An environment in which the page loads normally but its title does not
mention Zara. -/
def envTitleMismatch : ZaraScraper.Env :=
  { okEnv with title := Except.ok "Access Denied" }

/-- Evaluation of one navigation attempt when the page loads, the cookie
sleep returns, and the title call returns. -/
theorem navigate_eval (env : ZaraScraper.Env) (d : ZaraScraper.ScrapeData)
    (t : String) (hg : env.goto = Except.ok ())
    (hw : env.waitDom = Except.ok ()) (hsl : env.cookieSleep = Except.ok ())
    (ht : env.title = Except.ok t) :
    ZaraScraper.navigate_to_homepage env d =
      (strContains (strLower t) "zara", d, [Step.navigate, Step.cookie]) := by
  unfold ZaraScraper.navigate_to_homepage
  rw [hg, hw, ht]
  dsimp only
  rw [ZaraScraper.handle_cookie_popup_state_of_sleep_ok env d hsl]

/-- C1: in every run of `ZaraScraper.run_scrape` the performed steps form an
initial segment of the fixed sequence navigate, cookie dismissal, HTML save,
screenshot save, banner extraction, result display — so each step is
performed at most once and never before an earlier step of the sequence —
and a run that reaches completion (sets the success flag) performs exactly
that sequence. -/
theorem C1_run_scrape_step_order (env : ZaraScraper.Env) (ts locale : String) :
    (∃ rest, (ZaraScraper.run_scrape env ts locale).2 ++ rest
        = ZaraScraper.fullSteps)
  ∧ ((ZaraScraper.run_scrape env ts locale).1.success = true →
      (ZaraScraper.run_scrape env ts locale).2 = ZaraScraper.fullSteps) := by
  rcases hb : (ZaraScraper.navigate_to_homepage env
      (ZaraScraper.initScrapeData ts locale)).1 with _ | _
  · have hrun := ZaraScraper.run_scrape_of_nav_false env ts locale hb
    constructor
    · rcases ZaraScraper.navigate_trace env
        (ZaraScraper.initScrapeData ts locale) with ht | ht
      · exact ⟨[Step.cookie, Step.saveHTML, Step.saveScreenshot, Step.extract,
          Step.report], by rw [hrun, ht]; rfl⟩
      · exact ⟨[Step.saveHTML, Step.saveScreenshot, Step.extract,
          Step.report], by rw [hrun, ht]; rfl⟩
    · intro hs
      rw [hrun] at hs
      simp at hs
  · have hrun := ZaraScraper.run_scrape_of_nav_true env ts locale hb
    rcases ZaraScraper.navigate_true env
      (ZaraScraper.initScrapeData ts locale) hb with ⟨t, _, _, htr⟩
    constructor
    · exact ⟨[], by rw [hrun, htr]; rfl⟩
    · intro _
      rw [hrun, htr]
      rfl

/-- Witness: in the all-success environment the run completes and performs
the full step sequence. -/
theorem C1_run_scrape_step_order_witness :
    (ZaraScraper.run_scrape okEnv "20250101_000000" "en-US").2
      = ZaraScraper.fullSteps :=
  (C1_run_scrape_step_order okEnv "20250101_000000" "en-US").2 (by decide)

/-- C9: once navigation returns `True`, `run_scrape` sets the success flag
regardless of what the later save and extraction steps do. -/
theorem C9_success_despite_later_failures (env : ZaraScraper.Env)
    (ts locale : String)
    (h : (ZaraScraper.navigate_to_homepage env
        (ZaraScraper.initScrapeData ts locale)).1 = true) :
    (ZaraScraper.run_scrape env ts locale).1.success = true := by
  rw [ZaraScraper.run_scrape_of_nav_true env ts locale h]

/-- Witness: a run whose saves and extraction all raise still reports
success, with no files recorded and a non-empty error list, so its process
exits with code 0. -/
theorem C9_success_despite_later_failures_witness :
    (ZaraScraper.run_scrape envC9 "20250101_000000" "en-US").1.success = true
  ∧ (ZaraScraper.run_scrape envC9 "20250101_000000" "en-US").1.html_file = none
  ∧ (ZaraScraper.run_scrape envC9 "20250101_000000" "en-US").1.screenshot_file
      = none
  ∧ (ZaraScraper.run_scrape envC9 "20250101_000000" "en-US").1.errors ≠ []
  ∧ zara_scraper_exit
      (some (ZaraScraper.run_scrape envC9 "20250101_000000" "en-US").1.success)
      = 0 :=
  ⟨C9_success_despite_later_failures envC9 "20250101_000000" "en-US" (by decide),
    by decide, by decide, by decide, by decide⟩

/-- C10: a failed navigation aborts the run with the success flag cleared and
every other result field at its initial value, and in the specific case of a
loaded page whose title does not contain zara the run fails with an empty
error list. -/
theorem C10_nav_failure_frame (env : ZaraScraper.Env) (ts locale : String) :
    ((ZaraScraper.navigate_to_homepage env
        (ZaraScraper.initScrapeData ts locale)).1 = false →
      (ZaraScraper.run_scrape env ts locale).1.success = false
      ∧ (ZaraScraper.run_scrape env ts locale).1.html_file = none
      ∧ (ZaraScraper.run_scrape env ts locale).1.screenshot_file = none
      ∧ (ZaraScraper.run_scrape env ts locale).1.banners_found = 0)
  ∧ (∀ t, env.goto = Except.ok () → env.waitDom = Except.ok () →
      env.cookieSleep = Except.ok () → env.title = Except.ok t →
      strContains (strLower t) "zara" = false →
      (ZaraScraper.run_scrape env ts locale).1.success = false
      ∧ (ZaraScraper.run_scrape env ts locale).1.errors = []) := by
  constructor
  · intro h
    have hrun := ZaraScraper.run_scrape_of_nav_false env ts locale h
    have hf := ZaraScraper.navigate_frame env (ZaraScraper.initScrapeData ts locale)
    rw [hrun]
    refine ⟨rfl, ?_, ?_, ?_⟩
    · exact hf.1
    · exact hf.2.1
    · exact hf.2.2.1
  · intro t hg hw hsl ht hz
    have hnav := navigate_eval env (ZaraScraper.initScrapeData ts locale) t hg hw hsl ht
    have hfalse : (ZaraScraper.navigate_to_homepage env
        (ZaraScraper.initScrapeData ts locale)).1 = false := by
      rw [hnav]
      exact hz
    have hrun := ZaraScraper.run_scrape_of_nav_false env ts locale hfalse
    rw [hrun, hnav]
    exact ⟨rfl, rfl⟩

/-- Witness: with a loaded page titled Access Denied the run fails, leaves
every field initial, and reports no error at all. -/
theorem C10_nav_failure_frame_witness :
    (ZaraScraper.run_scrape envTitleMismatch "20250101_000000" "en-US").1.success
      = false
  ∧ (ZaraScraper.run_scrape envTitleMismatch "20250101_000000" "en-US").1.errors
      = []
  ∧ (ZaraScraper.run_scrape envTitleMismatch "20250101_000000" "en-US").1.html_file
      = none :=
  ⟨((C10_nav_failure_frame envTitleMismatch "20250101_000000" "en-US").2
      "Access Denied" rfl rfl rfl rfl (by decide)).1,
    ((C10_nav_failure_frame envTitleMismatch "20250101_000000" "en-US").2
      "Access Denied" rfl rfl rfl rfl (by decide)).2,
    by decide⟩

/-- C6: a run whose navigation, content read, file write and screenshot call
all return writes both outputs under the fixed relative directories using the
single construction-time timestamp, and records exactly those paths. -/
theorem C6_output_paths (env : ZaraScraper.Env) (ts locale html : String)
    (hnav : (ZaraScraper.navigate_to_homepage env
        (ZaraScraper.initScrapeData ts locale)).1 = true)
    (hc : env.content = Except.ok html)
    (hw : env.writeHtml (ZaraScraper.htmlPath ts) = Except.ok ())
    (hs : env.screenshot (ZaraScraper.screenshotPath ts) = Except.ok ()) :
    (ZaraScraper.run_scrape env ts locale).1.success = true
  ∧ (ZaraScraper.run_scrape env ts locale).1.html_file
      = some (ZaraScraper.htmlPath ts)
  ∧ (ZaraScraper.run_scrape env ts locale).1.screenshot_file
      = some (ZaraScraper.screenshotPath ts)
  ∧ ZaraScraper.htmlPath ts = "data/scrapes/html/zara_homepage_" ++ ts ++ ".html"
  ∧ ZaraScraper.screenshotPath ts
      = "data/scrapes/screenshots/zara_homepage_" ++ ts ++ ".png" := by
  have hrun := ZaraScraper.run_scrape_of_nav_true env ts locale hnav
  have hsave := ZaraScraper.save_html_ok env ts
    (ZaraScraper.navigate_to_homepage env
      (ZaraScraper.initScrapeData ts locale)).2.1 html hc hw
  have hshot := ZaraScraper.save_screenshot_ok env ts
    (ZaraScraper.save_html env ts (ZaraScraper.navigate_to_homepage env
      (ZaraScraper.initScrapeData ts locale)).2.1).2 hs
  have hext := ZaraScraper.extract_frame env
    (ZaraScraper.save_screenshot env ts (ZaraScraper.save_html env ts
      (ZaraScraper.navigate_to_homepage env
        (ZaraScraper.initScrapeData ts locale)).2.1).2).2
  refine ⟨by rw [hrun], ?_, ?_, rfl, rfl⟩
  · rw [hrun]
    show (ZaraScraper.extract_hero_banners env _).2.html_file = _
    rw [hext.1]
    show (ZaraScraper.save_screenshot env ts _).2.html_file = _
    rw [(ZaraScraper.save_screenshot_frame env ts _).1]
    rw [hsave]
  · rw [hrun]
    show (ZaraScraper.extract_hero_banners env _).2.screenshot_file = _
    rw [hext.2.1]
    rw [hshot]

/-- Witness: the all-success run records the two timestamped paths. -/
theorem C6_output_paths_witness :
    (ZaraScraper.run_scrape okEnv "20250101_000000" "en-US").1.html_file
      = some "data/scrapes/html/zara_homepage_20250101_000000.html"
  ∧ (ZaraScraper.run_scrape okEnv "20250101_000000" "en-US").1.screenshot_file
      = some "data/scrapes/screenshots/zara_homepage_20250101_000000.png" :=
  ⟨(C6_output_paths okEnv "20250101_000000" "en-US" "<html></html>"
      (by decide) rfl rfl rfl).2.1,
    (C6_output_paths okEnv "20250101_000000" "en-US" "<html></html>"
      (by decide) rfl rfl rfl).2.2.1⟩

/-- C8: extraction returns at most 20 records, drawn in page order from the
first `min(count, 20)` anchors, each with a truthy href and a non-empty
stripped text, and afterwards `banners_found` equals the length of the
returned list (still 0 when the extraction raised). -/
theorem C8_extract_hero_banners (env : ZaraScraper.Env)
    (d : ZaraScraper.ScrapeData) (h0 : d.banners_found = 0) :
    (ZaraScraper.extract_hero_banners env d).1.length ≤ 20
  ∧ (∀ b ∈ (ZaraScraper.extract_hero_banners env d).1,
      b.href ≠ "" ∧ b.text ≠ "")
  ∧ List.Pairwise (· < ·)
      ((ZaraScraper.extract_hero_banners env d).1.map Banner.index)
  ∧ (∀ n, env.bannerCount = Except.ok n →
      ∀ b ∈ (ZaraScraper.extract_hero_banners env d).1, b.index < min n 20)
  ∧ (ZaraScraper.extract_hero_banners env d).2.banners_found
      = (ZaraScraper.extract_hero_banners env d).1.length := by
  unfold ZaraScraper.extract_hero_banners
  rcases env.waitNetIdle with m | u
  · refine ⟨by simp, by simp, by simp, ?_, by simp [ZaraScraper.appendError, h0]⟩
    intro n hn b hb
    simp at hb
  · rcases hbc : env.bannerCount with m | n
    · refine ⟨by simp, by simp, by simp, ?_, by simp [ZaraScraper.appendError, h0]⟩
      intro k hk b hb
      simp at hb
    · dsimp only
      refine ⟨?_, ?_, ?_, ?_, rfl⟩
      · calc (ZaraScraper.extractLoop env (List.range (min n 20))).length
            ≤ (List.range (min n 20)).length :=
              ZaraScraper.extractLoop_length env _
          _ ≤ 20 := by simp
      · intro b hb
        exact ⟨(ZaraScraper.extractLoop_mem env _ b hb).1,
          (ZaraScraper.extractLoop_mem env _ b hb).2.1⟩
      · exact List.Pairwise.sublist
          (ZaraScraper.extractLoop_index_sublist env _)
          (List.pairwise_lt_range _)
      · intro k hk b hb
        have : b.index ∈ List.range (min n 20) :=
          (ZaraScraper.extractLoop_mem env _ b hb).2.2
        have hkn : k = n := Except.ok.inj hk.symm
        subst hkn
        exact List.mem_range.mp this

/-- Witness: in the all-success environment the three anchors all qualify and
are counted. -/
theorem C8_extract_hero_banners_witness :
    (ZaraScraper.extract_hero_banners okEnv dZ).1.length ≤ 20
  ∧ (ZaraScraper.extract_hero_banners okEnv dZ).2.banners_found
      = (ZaraScraper.extract_hero_banners okEnv dZ).1.length
  ∧ (ZaraScraper.extract_hero_banners okEnv dZ).2.banners_found = 3 :=
  ⟨(C8_extract_hero_banners okEnv dZ (by decide)).1,
    (C8_extract_hero_banners okEnv dZ (by decide)).2.2.2.2,
    by decide⟩

/-- C7: a run is invariant under the retry configuration — `zara_scraper.py`
never reads `SCRAPING_CONFIG`, whose retry fields hold 3 and 5 — and every
pipeline step occurs at most once in any run trace. -/
theorem C7_no_retry (env : ZaraScraper.Env) (ts locale : String) :
    (∀ r1 d1 r2 d2 : Nat,
      run_scrape_with_config
        { SCRAPING_CONFIG with max_retries := r1, retry_delay := d1 }
        env ts locale
      = run_scrape_with_config
        { SCRAPING_CONFIG with max_retries := r2, retry_delay := d2 }
        env ts locale)
  ∧ SCRAPING_CONFIG.max_retries = 3
  ∧ SCRAPING_CONFIG.retry_delay = 5
  ∧ (∀ s : Step,
      (run_scrape_with_config SCRAPING_CONFIG env ts locale).2.count s ≤ 1) := by
  refine ⟨fun _ _ _ _ => rfl, rfl, rfl, ?_⟩
  intro s
  show (ZaraScraper.run_scrape env ts locale).2.count s ≤ 1
  rcases hb : (ZaraScraper.navigate_to_homepage env
      (ZaraScraper.initScrapeData ts locale)).1 with _ | _
  · have hrun := ZaraScraper.run_scrape_of_nav_false env ts locale hb
    rcases ZaraScraper.navigate_trace env
      (ZaraScraper.initScrapeData ts locale) with ht | ht
    · rw [hrun]
      show List.count s (ZaraScraper.navigate_to_homepage env
        (ZaraScraper.initScrapeData ts locale)).2.2 ≤ 1
      rw [ht]
      cases s <;> decide
    · rw [hrun]
      show List.count s (ZaraScraper.navigate_to_homepage env
        (ZaraScraper.initScrapeData ts locale)).2.2 ≤ 1
      rw [ht]
      cases s <;> decide
  · have hrun := ZaraScraper.run_scrape_of_nav_true env ts locale hb
    rcases ZaraScraper.navigate_true env
      (ZaraScraper.initScrapeData ts locale) hb with ⟨t, _, _, htr⟩
    rw [hrun]
    show List.count s ((ZaraScraper.navigate_to_homepage env
      (ZaraScraper.initScrapeData ts locale)).2.2
        ++ [Step.saveHTML, Step.saveScreenshot, Step.extract, Step.report]) ≤ 1
    rw [htr]
    cases s <;> decide

/-- Witness: a concrete completed run counts each step exactly once. -/
theorem C7_no_retry_witness :
    (run_scrape_with_config SCRAPING_CONFIG okEnv "20250101_000000"
        "en-US").2.count Step.navigate ≤ 1
  ∧ (run_scrape_with_config SCRAPING_CONFIG okEnv "20250101_000000"
        "en-US").2.count Step.extract ≤ 1 :=
  ⟨(C7_no_retry okEnv "20250101_000000" "en-US").2.2.2 Step.navigate,
    (C7_no_retry okEnv "20250101_000000" "en-US").2.2.2 Step.extract⟩

/-- C5: each of the five CLI entry points exits with code 0 exactly when the
success flag of the result record is true, and with code 1 otherwise, and the code
of the zara entry point is determined by the success flag of the run it
performed. -/
theorem C5_exit_codes :
    (∀ s : Option Bool,
        zara_scraper_exit s = (if s = some true then 0 else 1)
      ∧ demo_scraper_exit s = (if s = some true then 0 else 1)
      ∧ test_scraper_exit s = (if s = some true then 0 else 1)
      ∧ run_scraper_exit s = (if s = some true then 0 else 1)
      ∧ run_demo_exit s = (if s = some true then 0 else 1))
  ∧ (∀ (env : ZaraScraper.Env) (ts locale : String),
      zara_scraper_exit (some (ZaraScraper.run_scrape env ts locale).1.success)
        = (if (ZaraScraper.run_scrape env ts locale).1.success then 0 else 1)) := by
  constructor
  · intro s
    rcases s with _ | b
    · exact ⟨rfl, rfl, rfl, rfl, rfl⟩
    · cases b
      · exact ⟨by simp [zara_scraper_exit, truthy],
          by simp [demo_scraper_exit, truthy],
          by simp [test_scraper_exit, truthy],
          by simp [run_scraper_exit],
          by simp [run_demo_exit]⟩
      · exact ⟨by simp [zara_scraper_exit, truthy],
          by simp [demo_scraper_exit, truthy],
          by simp [test_scraper_exit, truthy],
          by simp [run_scraper_exit],
          by simp [run_demo_exit]⟩
  · intro env ts locale
    cases hb : (ZaraScraper.run_scrape env ts locale).1.success
    · simp [zara_scraper_exit, truthy]
    · simp [zara_scraper_exit, truthy]

namespace ZaraScraper

theorem probesOf_cons_sleep (t : List CookieEv) :
    probesOf (.sleep :: t) = probesOf t := rfl

theorem probesOf_append (t u : List CookieEv) :
    probesOf (t ++ u) = probesOf t ++ probesOf u :=
  List.filterMap_append t u _

end ZaraScraper

/-- C4: under a returning sleep and returning clicks, the cookie handler
sleeps exactly once, probes the ten fixed selectors in list order without
revisiting any, clicks the first selector whose element count is positive and
immediately returns `True` there, and returns `False` when no selector and no
fallback matches, with no further waiting or retrying. -/
theorem C4_cookie_popup_scan (env : ZaraScraper.Env)
    (d : ZaraScraper.ScrapeData)
    (hsl : env.cookieSleep = Except.ok ())
    (hk : ∀ i, env.cookieClick i = Except.ok ()) :
    (∃ t, (ZaraScraper.handle_cookie_popup env d).2.2
        = ZaraScraper.CookieEv.sleep :: t ∧ ZaraScraper.CookieEv.sleep ∉ t)
  ∧ (∃ m, m ≤ 10 ∧ ZaraScraper.probesOf
      (ZaraScraper.handle_cookie_popup env d).2.2 = List.range m)
  ∧ (∀ i0, i0 < 10 → ZaraScraper.selectorHit env i0 = true →
      (∀ j, j < i0 → ZaraScraper.selectorHit env j = false) →
      ZaraScraper.handle_cookie_popup env d =
        (true, d, ZaraScraper.CookieEv.sleep ::
          ((List.range i0).map ZaraScraper.CookieEv.probe
            ++ [ZaraScraper.CookieEv.probe i0, ZaraScraper.CookieEv.click i0])))
  ∧ ((∀ j, j < 10 → ZaraScraper.selectorHit env j = false) →
      env.roleCount = Except.ok 0 →
      ZaraScraper.handle_cookie_popup env d =
        (false, d, ZaraScraper.CookieEv.sleep ::
          ((List.range 10).map ZaraScraper.CookieEv.probe
            ++ [ZaraScraper.CookieEv.roleProbe]))) := by
  have h10 : ZaraScraper.cookieSelectors.length = 10 := rfl
  refine ⟨?_, ?_, ?_, ?_⟩
  · unfold ZaraScraper.handle_cookie_popup
    rw [hsl]
    have hns := ZaraScraper.cookieLoop_no_sleep env
      (List.range ZaraScraper.cookieSelectors.length)
    rcases hcl : ZaraScraper.cookieLoop env
      (List.range ZaraScraper.cookieSelectors.length) with ⟨o, t⟩
    rw [hcl] at hns
    rcases o with _ | i
    · rcases env.roleCount with m | n
      · exact ⟨t ++ [ZaraScraper.CookieEv.roleProbe], rfl, by simp [hns]⟩
      · by_cases hn : 0 < n
        · simp only [hn, if_true]
          rcases env.roleClick with m | u
          · exact ⟨t ++ [ZaraScraper.CookieEv.roleProbe,
              ZaraScraper.CookieEv.roleClick], rfl, by simp [hns]⟩
          · exact ⟨t ++ [ZaraScraper.CookieEv.roleProbe,
              ZaraScraper.CookieEv.roleClick], rfl, by simp [hns]⟩
        · simp only [hn, if_false]
          exact ⟨t ++ [ZaraScraper.CookieEv.roleProbe], rfl, by simp [hns]⟩
    · exact ⟨t, rfl, hns⟩
  · unfold ZaraScraper.handle_cookie_popup
    rw [hsl]
    have hpr := ZaraScraper.cookieLoop_probes env
      (List.range ZaraScraper.cookieSelectors.length)
    rcases hcl : ZaraScraper.cookieLoop env
      (List.range ZaraScraper.cookieSelectors.length) with ⟨o, t⟩
    rw [hcl] at hpr
    rcases hpr with ⟨k, hpk⟩
    have hkr : ZaraScraper.probesOf t = List.range (min k 10) := by
      rw [hpk, h10]
      exact List.take_range k 10
    rcases o with _ | i
    · rcases env.roleCount with m | n
      · refine ⟨min k 10, Nat.min_le_right _ _, ?_⟩
        rw [ZaraScraper.probesOf_cons_sleep, ZaraScraper.probesOf_append, hkr]
        simp [ZaraScraper.probesOf]
      · by_cases hn : 0 < n
        · simp only [hn, if_true]
          rcases env.roleClick with m | u
          · refine ⟨min k 10, Nat.min_le_right _ _, ?_⟩
            rw [ZaraScraper.probesOf_cons_sleep, ZaraScraper.probesOf_append, hkr]
            simp [ZaraScraper.probesOf]
          · refine ⟨min k 10, Nat.min_le_right _ _, ?_⟩
            rw [ZaraScraper.probesOf_cons_sleep, ZaraScraper.probesOf_append, hkr]
            simp [ZaraScraper.probesOf]
        · simp only [hn, if_false]
          refine ⟨min k 10, Nat.min_le_right _ _, ?_⟩
          rw [ZaraScraper.probesOf_cons_sleep, ZaraScraper.probesOf_append, hkr]
          simp [ZaraScraper.probesOf]
    · exact ⟨min k 10, Nat.min_le_right _ _,
        by rw [ZaraScraper.probesOf_cons_sleep, hkr]⟩
  · intro i0 hlt hhit hmin
    rcases ZaraScraper.range_split 10 i0 hlt with ⟨tl, htl⟩
    have hloop : ZaraScraper.cookieLoop env
        (List.range ZaraScraper.cookieSelectors.length)
      = (some i0, (List.range i0).map ZaraScraper.CookieEv.probe
          ++ [ZaraScraper.CookieEv.probe i0, ZaraScraper.CookieEv.click i0]) := by
      rw [h10, htl]
      exact ZaraScraper.cookieLoop_first_hit env hk (List.range i0) i0 tl
        (fun j hj => hmin j (List.mem_range.mp hj)) hhit
    unfold ZaraScraper.handle_cookie_popup
    rw [hsl, hloop]
  · intro hmiss hro
    have hloop : ZaraScraper.cookieLoop env
        (List.range ZaraScraper.cookieSelectors.length)
      = (none, (List.range 10).map ZaraScraper.CookieEv.probe) := by
      rw [h10]
      exact ZaraScraper.cookieLoop_all_miss env (List.range 10)
        (fun j hj => hmiss j (List.mem_range.mp hj))
    unfold ZaraScraper.handle_cookie_popup
    rw [hsl, hloop, hro]
    simp

/-- An environment in which the count call of the first cookie selector
raises and everything else succeeds with no match. -/
def envProbeErr : ZaraScraper.Env :=
  { okEnv with cookieCount := fun i =>
      if i == 0 then Except.error "Timeout 30000ms exceeded" else Except.ok 0 }

/-- An environment whose first banner probe raises while the second selector
matches, for the cookie witness. -/
def envC4 : ZaraScraper.Env :=
  { okEnv with cookieCount := fun i => Except.ok (if i == 2 then 1 else 0) }

/-- An environment in which the goto call raises. -/
def envGotoErr : ZaraScraper.Env :=
  { okEnv with goto := Except.error "net::ERR_CONNECTION_REFUSED" }

/-- Witness: with the first matching selector at position 2 the handler
probes positions 0, 1, 2 in order, clicks once at 2, and returns `True`
immediately. -/
theorem C4_cookie_popup_scan_witness :
    ZaraScraper.handle_cookie_popup envC4 dZ =
      (true, dZ, ZaraScraper.CookieEv.sleep ::
        ((List.range 2).map ZaraScraper.CookieEv.probe
          ++ [ZaraScraper.CookieEv.probe 2, ZaraScraper.CookieEv.click 2])) :=
  (C4_cookie_popup_scan envC4 dZ rfl (fun _ => rfl)).2.2.1 2 (by decide)
    (by decide) (by decide)

/-- C3 counterexample: a raised browser call inside cookie handling (the
element count of the first selector) is caught and logged only at debug
level — the scan continues and nothing is appended to the error list, so not
every caught browser exception appends a describing string. -/
theorem C3_counterexample :
    envProbeErr.cookieCount 0 = Except.error "Timeout 30000ms exceeded"
  ∧ (ZaraScraper.handle_cookie_popup envProbeErr dZ).1 = false
  ∧ (ZaraScraper.handle_cookie_popup envProbeErr dZ).2.1.errors = [] :=
  ⟨rfl, by decide, by decide⟩

/-- Uniform error treatment of the `ZaraScraper` operations: an exception
reaching the own outer blanket handler of an operation appends exactly one
describing string and fails the operation; the inner cookie probes and the
inner extraction reads swallow their exceptions without appending. -/
theorem zara_error_uniform (env : ZaraScraper.Env) :
    (∀ m (d : ZaraScraper.ScrapeData), env.launch = Except.error m →
      ZaraScraper.start_browser env d =
        (Except.error m, ZaraScraper.appendError d
          ("Failed to start browser: " ++ m)))
  ∧ (∀ m d, env.goto = Except.error m →
      ZaraScraper.navigate_to_homepage env d =
        (false, ZaraScraper.appendError d
          ("Failed to navigate to homepage: " ++ m), [Step.navigate]))
  ∧ (∀ ts m d, env.content = Except.error m →
      ZaraScraper.save_html env ts d =
        (none, ZaraScraper.appendError d ("Failed to save HTML: " ++ m)))
  ∧ (∀ ts m d, env.screenshot (ZaraScraper.screenshotPath ts) = Except.error m →
      ZaraScraper.save_screenshot env ts d =
        (none, ZaraScraper.appendError d ("Failed to save screenshot: " ++ m)))
  ∧ (∀ m d, env.waitNetIdle = Except.error m →
      ZaraScraper.extract_hero_banners env d =
        ([], ZaraScraper.appendError d ("Failed to extract banners: " ++ m)))
  ∧ (∀ m d, env.cookieSleep = Except.error m →
      ZaraScraper.handle_cookie_popup env d =
        (false, ZaraScraper.appendError d
          ("Error handling cookie popup: " ++ m), [ZaraScraper.CookieEv.sleep]))
  ∧ (∀ d, env.cookieSleep = Except.ok () →
      (ZaraScraper.handle_cookie_popup env d).2.1 = d)
  ∧ (∀ n d, env.waitNetIdle = Except.ok () → env.bannerCount = Except.ok n →
      (ZaraScraper.extract_hero_banners env d).2.errors = d.errors) := by
  refine ⟨?_, ?_, ?_, ?_, ?_, ?_, ?_, ?_⟩
  · intro m d h
    unfold ZaraScraper.start_browser
    rw [h]
  · intro m d h
    unfold ZaraScraper.navigate_to_homepage
    rw [h]
  · intro ts m d h
    unfold ZaraScraper.save_html
    rw [h]
  · intro ts m d h
    unfold ZaraScraper.save_screenshot
    rw [h]
  · intro m d h
    unfold ZaraScraper.extract_hero_banners
    rw [h]
  · intro m d h
    unfold ZaraScraper.handle_cookie_popup
    rw [h]
  · intro d h
    exact ZaraScraper.handle_cookie_popup_state_of_sleep_ok env d h
  · intro n d h1 h2
    unfold ZaraScraper.extract_hero_banners
    rw [h1, h2]

/-- Uniform error treatment of the demo and test operations. -/
theorem basic_error_uniform (env : BasicEnv) :
    (∀ m (d : PageScrapeData), env.launch = Except.error m →
      DemoScraper.start_browser env d =
        (Except.error m, pageAppendError d ("Failed to start browser: " ++ m))
      ∧ TestScraper.start_browser env d =
        (Except.error m, pageAppendError d ("Failed to start browser: " ++ m)))
  ∧ (∀ m d, env.goto = Except.error m →
      DemoScraper.navigate_to_page env d =
        (false, pageAppendError d
          ("Failed to navigate to page: " ++ m), [Step.navigate])
      ∧ TestScraper.navigate_to_page env d =
        (false, pageAppendError d
          ("Failed to navigate to page: " ++ m), [Step.navigate]))
  ∧ (∀ ts m d, env.content = Except.error m →
      DemoScraper.save_html env ts d =
        (none, pageAppendError d ("Failed to save HTML: " ++ m))
      ∧ TestScraper.save_html env ts d =
        (none, pageAppendError d ("Failed to save HTML: " ++ m)))
  ∧ (∀ m d, env.waitNetIdle = Except.error m →
      DemoScraper.extract_data env d =
        ([], pageAppendError d ("Failed to extract data: " ++ m))
      ∧ TestScraper.extract_data env d =
        ([], pageAppendError d ("Failed to extract data: " ++ m)))
  ∧ (∀ n d, env.waitNetIdle = Except.ok () → env.headingCount = Except.ok n →
      (DemoScraper.extract_data env d).2.errors = d.errors
      ∧ (TestScraper.extract_data env d).2.errors = d.errors) := by
  refine ⟨?_, ?_, ?_, ?_, ?_⟩
  · intro m d h
    constructor
    · unfold DemoScraper.start_browser
      rw [h]
    · unfold TestScraper.start_browser
      rw [h]
  · intro m d h
    constructor
    · unfold DemoScraper.navigate_to_page
      rw [h]
    · unfold TestScraper.navigate_to_page
      rw [h]
  · intro ts m d h
    constructor
    · unfold DemoScraper.save_html
      rw [h]
    · unfold TestScraper.save_html
      rw [h]
  · intro m d h
    constructor
    · unfold DemoScraper.extract_data
      rw [h]
    · unfold TestScraper.extract_data
      rw [h]
  · intro n d h1 h2
    constructor
    · unfold DemoScraper.extract_data
      rw [h1, h2]
    · unfold TestScraper.extract_data
      rw [h1, h2]

/-- C3 as amended: in every scraper class, an exception reaching an
outer blanket handler of the operation itself is caught and appends exactly one
describing string, the operation failing uniformly (`start_browser` appends
and re-raises, the others return `False`, `None` or empty); but the
per-selector probes and clicks inside cookie handling and the per-element
reads inside extraction swallow their exceptions and continue without
appending anything. -/
theorem C3_error_handling (env : ZaraScraper.Env) (benv : BasicEnv) :
    ((∀ m (d : ZaraScraper.ScrapeData), env.launch = Except.error m →
      ZaraScraper.start_browser env d =
        (Except.error m, ZaraScraper.appendError d
          ("Failed to start browser: " ++ m)))
  ∧ (∀ m d, env.goto = Except.error m →
      ZaraScraper.navigate_to_homepage env d =
        (false, ZaraScraper.appendError d
          ("Failed to navigate to homepage: " ++ m), [Step.navigate]))
  ∧ (∀ ts m d, env.content = Except.error m →
      ZaraScraper.save_html env ts d =
        (none, ZaraScraper.appendError d ("Failed to save HTML: " ++ m)))
  ∧ (∀ ts m d, env.screenshot (ZaraScraper.screenshotPath ts) = Except.error m →
      ZaraScraper.save_screenshot env ts d =
        (none, ZaraScraper.appendError d ("Failed to save screenshot: " ++ m)))
  ∧ (∀ m d, env.waitNetIdle = Except.error m →
      ZaraScraper.extract_hero_banners env d =
        ([], ZaraScraper.appendError d ("Failed to extract banners: " ++ m)))
  ∧ (∀ m d, env.cookieSleep = Except.error m →
      ZaraScraper.handle_cookie_popup env d =
        (false, ZaraScraper.appendError d
          ("Error handling cookie popup: " ++ m), [ZaraScraper.CookieEv.sleep]))
  ∧ (∀ d, env.cookieSleep = Except.ok () →
      (ZaraScraper.handle_cookie_popup env d).2.1 = d)
  ∧ (∀ n d, env.waitNetIdle = Except.ok () → env.bannerCount = Except.ok n →
      (ZaraScraper.extract_hero_banners env d).2.errors = d.errors))
  ∧ ((∀ m (d : PageScrapeData), benv.launch = Except.error m →
      DemoScraper.start_browser benv d =
        (Except.error m, pageAppendError d ("Failed to start browser: " ++ m))
      ∧ TestScraper.start_browser benv d =
        (Except.error m, pageAppendError d ("Failed to start browser: " ++ m)))
  ∧ (∀ m d, benv.goto = Except.error m →
      DemoScraper.navigate_to_page benv d =
        (false, pageAppendError d
          ("Failed to navigate to page: " ++ m), [Step.navigate])
      ∧ TestScraper.navigate_to_page benv d =
        (false, pageAppendError d
          ("Failed to navigate to page: " ++ m), [Step.navigate]))
  ∧ (∀ ts m d, benv.content = Except.error m →
      DemoScraper.save_html benv ts d =
        (none, pageAppendError d ("Failed to save HTML: " ++ m))
      ∧ TestScraper.save_html benv ts d =
        (none, pageAppendError d ("Failed to save HTML: " ++ m)))
  ∧ (∀ m d, benv.waitNetIdle = Except.error m →
      DemoScraper.extract_data benv d =
        ([], pageAppendError d ("Failed to extract data: " ++ m))
      ∧ TestScraper.extract_data benv d =
        ([], pageAppendError d ("Failed to extract data: " ++ m)))
  ∧ (∀ n d, benv.waitNetIdle = Except.ok () → benv.headingCount = Except.ok n →
      (DemoScraper.extract_data benv d).2.errors = d.errors
      ∧ (TestScraper.extract_data benv d).2.errors = d.errors)) :=
  ⟨zara_error_uniform env, basic_error_uniform benv⟩

/-- Witness: a raised goto appends exactly its describing string and fails
the navigation. -/
theorem C3_error_handling_witness :
    ZaraScraper.navigate_to_homepage envGotoErr dZ =
      (false, ZaraScraper.appendError dZ
        ("Failed to navigate to homepage: " ++ "net::ERR_CONNECTION_REFUSED"),
        [Step.navigate]) :=
  (C3_error_handling envGotoErr basicOkEnv).1.2.1 "net::ERR_CONNECTION_REFUSED"
    dZ rfl

/-- A Zara environment with the same goto, wait and title outcomes as
`basicOkEnv`: the page loads and is titled Example Domain. -/
def envZmm : ZaraScraper.Env :=
  { okEnv with title := Except.ok "Example Domain" }

/-- A fixed initial demo record for concrete evaluations. -/
def dD : PageScrapeData :=
  DemoScraper.initScrapeData "20250101_000000" "en-US"

/-- A fixed initial test record for concrete evaluations. -/
def dT : PageScrapeData :=
  TestScraper.initScrapeData "20250101_000000" "en-US"

/-- C2 counterexample: with identical underlying call outcomes (page loads,
title Example Domain) the navigation step of `ZaraScraper` returns `False`
while the navigation steps of `DemoScraper` and `TestScraper` return `True` —
a control-flow difference not attributable to URL, selector or file-name
constants, refuting that each class performs each step with the same control
flow. -/
theorem C2_counterexample :
    envZmm.goto = basicOkEnv.goto
  ∧ envZmm.waitDom = basicOkEnv.waitDom
  ∧ envZmm.title = basicOkEnv.title
  ∧ (ZaraScraper.navigate_to_homepage envZmm dZ).1 = false
  ∧ (DemoScraper.navigate_to_page basicOkEnv dD).1 = true
  ∧ (TestScraper.navigate_to_page basicOkEnv dT).1 = true :=
  ⟨rfl, rfl, rfl, by decide, by decide, by decide⟩

/-- The demo navigation is the generic navigation. -/
theorem demo_navigate_eq (env : BasicEnv) (d : PageScrapeData) :
    DemoScraper.navigate_to_page env d = SpecPipeline.navigate env d := by
  unfold DemoScraper.navigate_to_page SpecPipeline.navigate
  rcases env.goto with m | u
  · rfl
  · rcases env.waitDom with m | u
    · rfl
    · rcases env.title with m | t <;> rfl

/-- The test navigation is the generic navigation. -/
theorem test_navigate_eq (env : BasicEnv) (d : PageScrapeData) :
    TestScraper.navigate_to_page env d = SpecPipeline.navigate env d := by
  unfold TestScraper.navigate_to_page SpecPipeline.navigate
  rcases env.goto with m | u
  · rfl
  · rcases env.waitDom with m | u
    · rfl
    · rcases env.title with m | t <;> rfl

/-- The demo HTML save is the generic HTML save at the demo configuration. -/
theorem demo_save_html_eq (env : BasicEnv) (ts : String) (d : PageScrapeData) :
    DemoScraper.save_html env ts d
      = SpecPipeline.save_html SpecPipeline.demoCfg env ts d := by
  unfold DemoScraper.save_html SpecPipeline.save_html
  have hp : SpecPipeline.htmlPath SpecPipeline.demoCfg ts
      = DemoScraper.htmlPath ts := rfl
  rw [hp]

/-- The test HTML save is the generic HTML save at the test configuration. -/
theorem test_save_html_eq (env : BasicEnv) (ts : String) (d : PageScrapeData) :
    TestScraper.save_html env ts d
      = SpecPipeline.save_html SpecPipeline.testCfg env ts d := by
  unfold TestScraper.save_html SpecPipeline.save_html
  have hp : SpecPipeline.htmlPath SpecPipeline.testCfg ts
      = TestScraper.htmlPath ts := rfl
  rw [hp]

/-- The demo screenshot save is the generic one at the demo configuration. -/
theorem demo_save_screenshot_eq (env : BasicEnv) (ts : String)
    (d : PageScrapeData) :
    DemoScraper.save_screenshot env ts d
      = SpecPipeline.save_screenshot SpecPipeline.demoCfg env ts d := by
  unfold DemoScraper.save_screenshot SpecPipeline.save_screenshot
  have hp : SpecPipeline.screenshotPath SpecPipeline.demoCfg ts
      = DemoScraper.screenshotPath ts := rfl
  rw [hp]

/-- The test screenshot save is the generic one at the test configuration. -/
theorem test_save_screenshot_eq (env : BasicEnv) (ts : String)
    (d : PageScrapeData) :
    TestScraper.save_screenshot env ts d
      = SpecPipeline.save_screenshot SpecPipeline.testCfg env ts d := by
  unfold TestScraper.save_screenshot SpecPipeline.save_screenshot
  have hp : SpecPipeline.screenshotPath SpecPipeline.testCfg ts
      = TestScraper.screenshotPath ts := rfl
  rw [hp]

/-- The demo extraction loop is the generic one. -/
theorem demo_extractLoop_eq (env : BasicEnv) (l : List Nat) :
    DemoScraper.extractLoop env l = SpecPipeline.extractLoop env l := by
  induction l with
  | nil => rfl
  | cons i rest ih =>
    unfold DemoScraper.extractLoop SpecPipeline.extractLoop
    rcases env.headText i with m | text
    · exact ih
    · rcases env.headTag i with m | tag
      · exact ih
      · dsimp only
        rw [ih]

/-- The test extraction loop is the generic one. -/
theorem test_extractLoop_eq (env : BasicEnv) (l : List Nat) :
    TestScraper.extractLoop env l = SpecPipeline.extractLoop env l := by
  induction l with
  | nil => rfl
  | cons i rest ih =>
    unfold TestScraper.extractLoop SpecPipeline.extractLoop
    rcases env.headText i with m | text
    · exact ih
    · rcases env.headTag i with m | tag
      · exact ih
      · dsimp only
        rw [ih]

/-- The demo extraction step is the generic one. -/
theorem demo_extract_eq (env : BasicEnv) (d : PageScrapeData) :
    DemoScraper.extract_data env d = SpecPipeline.extract_data env d := by
  unfold DemoScraper.extract_data SpecPipeline.extract_data
  rcases env.waitNetIdle with m | u
  · rfl
  · rcases env.headingCount with m | n
    · rfl
    · dsimp only
      rw [demo_extractLoop_eq]

/-- The test extraction step is the generic one. -/
theorem test_extract_eq (env : BasicEnv) (d : PageScrapeData) :
    TestScraper.extract_data env d = SpecPipeline.extract_data env d := by
  unfold TestScraper.extract_data SpecPipeline.extract_data
  rcases env.waitNetIdle with m | u
  · rfl
  · rcases env.headingCount with m | n
    · rfl
    · dsimp only
      rw [test_extractLoop_eq]

/-- The demo run is the generic run at the demo configuration. -/
theorem demo_run_eq (env : BasicEnv) (ts locale : String) :
    DemoScraper.run_scrape env ts locale
      = SpecPipeline.run_scrape SpecPipeline.demoCfg env ts locale := by
  unfold DemoScraper.run_scrape SpecPipeline.run_scrape
  have hinit : DemoScraper.initScrapeData ts locale
      = SpecPipeline.initScrapeData SpecPipeline.demoCfg ts locale := rfl
  dsimp only
  rw [hinit, demo_navigate_eq]
  rcases hn : SpecPipeline.navigate env
    (SpecPipeline.initScrapeData SpecPipeline.demoCfg ts locale) with ⟨b, d1, t1⟩
  cases b
  · rfl
  · dsimp only
    rw [demo_save_html_eq, demo_save_screenshot_eq, demo_extract_eq]

/-- The test run is the generic run at the test configuration. -/
theorem test_run_eq (env : BasicEnv) (ts locale : String) :
    TestScraper.run_scrape env ts locale
      = SpecPipeline.run_scrape SpecPipeline.testCfg env ts locale := by
  unfold TestScraper.run_scrape SpecPipeline.run_scrape
  have hinit : TestScraper.initScrapeData ts locale
      = SpecPipeline.initScrapeData SpecPipeline.testCfg ts locale := rfl
  dsimp only
  rw [hinit, test_navigate_eq]
  rcases hn : SpecPipeline.navigate env
    (SpecPipeline.initScrapeData SpecPipeline.testCfg ts locale) with ⟨b, d1, t1⟩
  cases b
  · rfl
  · dsimp only
    rw [test_save_html_eq, test_save_screenshot_eq, test_extract_eq]

/-- C2 as amended: `DemoScraper` and `TestScraper` are structurally identical
pipelines distinguished only by configuration constants — both equal the one
generic pipeline at their configurations — and `ZaraScraper` shares the same
top-level step sequence, but its navigation differs beyond constants: it
additionally attempts cookie-popup dismissal and succeeds only when the
loaded title contains zara case-insensitively. -/
theorem C2_structural_identity :
    DemoScraper.run_scrape = SpecPipeline.run_scrape SpecPipeline.demoCfg
  ∧ TestScraper.run_scrape = SpecPipeline.run_scrape SpecPipeline.testCfg
  ∧ (∀ (env : ZaraScraper.Env) (d : ZaraScraper.ScrapeData),
      (ZaraScraper.navigate_to_homepage env d).1 = true →
      ∃ t, env.title = Except.ok t ∧ strContains (strLower t) "zara" = true)
  ∧ (∀ (env : ZaraScraper.Env) (d : ZaraScraper.ScrapeData),
      env.goto = Except.ok () → env.waitDom = Except.ok () →
      (ZaraScraper.navigate_to_homepage env d).2.2
        = [Step.navigate, Step.cookie]) := by
  refine ⟨?_, ?_, ?_, ?_⟩
  · funext env ts locale
    exact demo_run_eq env ts locale
  · funext env ts locale
    exact test_run_eq env ts locale
  · intro env d h
    rcases ZaraScraper.navigate_true env d h with ⟨t, h1, h2, _⟩
    exact ⟨t, h1, h2⟩
  · exact fun env d hg hw => ZaraScraper.navigate_cookie_attempted env d hg hw

/-- Witness: in the all-success Zara environment the navigation attempts the
cookie dismissal, and a successful navigation exhibits a zara title. -/
theorem C2_structural_identity_witness :
    (ZaraScraper.navigate_to_homepage okEnv dZ).2.2
      = [Step.navigate, Step.cookie]
  ∧ ∃ t, okEnv.title = Except.ok t
      ∧ strContains (strLower t) "zara" = true :=
  ⟨C2_structural_identity.2.2.2 okEnv dZ rfl rfl,
    C2_structural_identity.2.2.1 okEnv dZ (by decide)⟩
